import Mathlib

/-
Verification development for the dendritic-memory-editor repository.

The repository ships one source file, `converter_scripts/convert_db_to_iath.py`,
holding the Record Normalizer (`convert_d1_to_iath_v1_compatible`) and the
`main` driver.  The IATH Batch Codec (`IathEncoder`, imported by the script) is
not part of the repository's sources, so the codec below is modelled from the
specification's byte-layout and error-handling sections; the normalizer and the
driver's control flow are embedded directly from the Python source.

Floating-point values are represented throughout by their IEEE-754 binary64
bit patterns, as natural numbers below 2^64.  Text that the codec serializes
is represented by its UTF-8 byte sequence, a list of naturals below 256.
-/

set_option autoImplicit false

namespace Iath

/-! ## Primitive field codecs (modelled from the spec, section 4.1 / 6) -/

/-- Modelled from the spec: little-endian unsigned 32-bit serialization used
for text length prefixes, reviewer counts and the batch tile count. -/
def u32Bytes (n : Nat) : List Nat :=
  [n % 256, n / 256 % 256, n / 65536 % 256, n / 16777216 % 256]

/-- Modelled from the spec: little-endian 64-bit serialization; the argument
is the IEEE-754 binary64 bit pattern of the float being stored. -/
def u64Bytes (n : Nat) : List Nat :=
  [n % 256, n / 256 % 256, n / 65536 % 256, n / 16777216 % 256,
   n / 4294967296 % 256, n / 1099511627776 % 256,
   n / 281474976710656 % 256, n / 72057594037927936 % 256]

/-- Modelled from the spec: read a little-endian u32 from the stream,
returning the value and the remaining bytes, or failure on truncation. -/
def readU32 : List Nat → Option (Nat × List Nat)
  | a :: b :: c :: d :: rest =>
      some (a + 256 * b + 65536 * c + 16777216 * d, rest)
  | _ => none

/-- Modelled from the spec: read a little-endian 64-bit pattern. -/
def readU64 : List Nat → Option (Nat × List Nat)
  | a :: b :: c :: d :: e :: f :: g :: h :: rest =>
      some (a + 256 * b + 65536 * c + 16777216 * d + 4294967296 * e
              + 1099511627776 * f + 281474976710656 * g
              + 72057594037927936 * h, rest)
  | _ => none

/-- Modelled from the spec: read exactly `k` bytes, failing when the declared
length exceeds the remaining buffer size. -/
def readBytes (k : Nat) (bs : List Nat) : Option (List Nat × List Nat) :=
  if k ≤ bs.length then some (bs.take k, bs.drop k) else none

/-- Whether a byte is a UTF-8 continuation byte (10xxxxxx). -/
def utf8Cont (b : Nat) : Bool :=
  decide (128 ≤ b) && decide (b ≤ 191)

/-- RFC-3629 UTF-8 validity of a byte sequence, rejecting overlong forms,
surrogates and code points above U+10FFFF. -/
def utf8Valid : List Nat → Bool
  | [] => true
  | b :: rest =>
    if b ≤ 127 then utf8Valid rest
    else match rest with
      | [] => false
      | c1 :: r1 =>
        if 194 ≤ b ∧ b ≤ 223 then utf8Cont c1 && utf8Valid r1
        else match r1 with
          | [] => false
          | c2 :: r2 =>
            if b = 224 then
              (decide (160 ≤ c1) && decide (c1 ≤ 191)) && utf8Cont c2 && utf8Valid r2
            else if (225 ≤ b ∧ b ≤ 236) ∨ b = 238 ∨ b = 239 then
              utf8Cont c1 && utf8Cont c2 && utf8Valid r2
            else if b = 237 then
              (decide (128 ≤ c1) && decide (c1 ≤ 159)) && utf8Cont c2 && utf8Valid r2
            else match r2 with
              | [] => false
              | c3 :: r3 =>
                if b = 240 then
                  (decide (144 ≤ c1) && decide (c1 ≤ 191)) && utf8Cont c2 && utf8Cont c3 && utf8Valid r3
                else if 241 ≤ b ∧ b ≤ 243 then
                  utf8Cont c1 && utf8Cont c2 && utf8Cont c3 && utf8Valid r3
                else if b = 244 then
                  (decide (128 ≤ c1) && decide (c1 ≤ 143)) && utf8Cont c2 && utf8Cont c3 && utf8Valid r3
                else false

/-- Modelled from the spec: decode-time error taxonomy (section 7). -/
inductive DecodeError where
  | badMagic : DecodeError
  | unsupportedVersion : DecodeError
  | truncatedRecord : DecodeError
  | trailingData : DecodeError
  | malformedText : DecodeError
deriving DecidableEq

/-- Modelled from the spec: encode-time validation failure, carrying the
index of the first invalid tile and a human-readable reason. -/
structure ValidationError where
  index : Nat
  reason : String
deriving DecidableEq

/-- Modelled from the spec: Text field codec, a u32 byte-length prefix
followed by the UTF-8 bytes. -/
def encodeText (s : List Nat) : List Nat :=
  u32Bytes s.length ++ s

/-- Modelled from the spec: Text decode reads the length, then exactly that
many bytes; `MalformedText` when the bytes are not valid UTF-8 or the
declared length exceeds the remaining buffer. -/
def decodeText (bs : List Nat) : Except DecodeError (List Nat × List Nat) :=
  match readU32 bs with
  | none => Except.error DecodeError.truncatedRecord
  | some (len, rest) =>
    match readBytes len rest with
    | none => Except.error DecodeError.malformedText
    | some (s, rest2) =>
      if utf8Valid s then Except.ok (s, rest2)
      else Except.error DecodeError.malformedText

/-- Modelled from the spec: Float3 encodes three consecutive binary64
little-endian values. -/
def encodeFloat3 (v : Nat × Nat × Nat) : List Nat :=
  u64Bytes v.1 ++ u64Bytes v.2.1 ++ u64Bytes v.2.2

/-- Modelled from the spec: Float3 decode reads exactly 24 bytes; truncated
input fails with `TruncatedRecord`. -/
def decodeFloat3 (bs : List Nat) : Except DecodeError ((Nat × Nat × Nat) × List Nat) :=
  match readU64 bs with
  | none => Except.error DecodeError.truncatedRecord
  | some (x, bs1) =>
    match readU64 bs1 with
    | none => Except.error DecodeError.truncatedRecord
    | some (y, bs2) =>
      match readU64 bs2 with
      | none => Except.error DecodeError.truncatedRecord
      | some (z, bs3) => Except.ok ((x, y, z), bs3)

/-- Modelled from the spec: a single binary64 value (initial_certainty). -/
def decodeF64 (bs : List Nat) : Except DecodeError (Nat × List Nat) :=
  match readU64 bs with
  | none => Except.error DecodeError.truncatedRecord
  | some p => Except.ok p

/-- Modelled from the spec: identifier list encodes a u32 count followed by
that many length-prefixed Text entries. -/
def encodeReviewers (rs : List (List Nat)) : List Nat :=
  u32Bytes rs.length ++ (rs.map encodeText).flatten

/-- Modelled from the spec: decode `n` consecutive Text entries. -/
def decodeTexts : Nat → List Nat → Except DecodeError (List (List Nat) × List Nat)
  | 0, bs => Except.ok ([], bs)
  | n + 1, bs =>
    match decodeText bs with
    | Except.error e => Except.error e
    | Except.ok (s, bs1) =>
      match decodeTexts n bs1 with
      | Except.error e => Except.error e
      | Except.ok (ss, bs2) => Except.ok (s :: ss, bs2)

/-- Modelled from the spec: identifier-list decode. -/
def decodeReviewers (bs : List Nat) : Except DecodeError (List (List Nat) × List Nat) :=
  match readU32 bs with
  | none => Except.error DecodeError.truncatedRecord
  | some (n, bs1) => decodeTexts n bs1

/-! ## Tile Record and Tile Codec (modelled from the spec, sections 3 / 4.2) -/

/-- Modelled from the spec: the canonical Tile Record the codec operates on.
Text fields hold UTF-8 byte sequences; float fields hold binary64 bit
patterns, so record equality is bit-pattern equality for the coordinates. -/
structure TileRecord where
  knowledge_id : List Nat
  topic : List Nat
  created_at : List Nat
  medical_space : Nat × Nat × Nat
  meta_space : Nat × Nat × Nat
  thinking_process : List Nat
  final_response : List Nat
  verification_status : List Nat
  initial_certainty : Nat
  reviewers : List (List Nat)
deriving DecidableEq

/-- Modelled from the spec: whether a binary64 bit pattern denotes a value in
the closed interval [0.0, 1.0].  Non-negative doubles order like their bit
patterns, `0x3FF0000000000000` is 1.0, and the only value in range with the
sign bit set is negative zero, `0x8000000000000000`. -/
def certaintyValid (bits : Nat) : Bool :=
  decide (bits ≤ 4607182418800017408) || decide (bits = 9223372036854775808)

/-- Modelled from the spec: the per-tile encode-time validation gate —
`knowledge_id` and `topic` non-empty and `initial_certainty` in [0.0, 1.0]. -/
def tileValid (t : TileRecord) : Bool :=
  !t.knowledge_id.isEmpty && (!t.topic.isEmpty && certaintyValid t.initial_certainty)

/-- Modelled from the spec: Tile Codec encode, the fixed field order of
section 4.2, with no internal length prefix around the block. -/
def encodeTile (t : TileRecord) : List Nat :=
  encodeText t.knowledge_id ++ encodeText t.topic ++ encodeText t.created_at ++
  encodeFloat3 t.medical_space ++ encodeFloat3 t.meta_space ++
  encodeText t.thinking_process ++ encodeText t.final_response ++
  encodeText t.verification_status ++ u64Bytes t.initial_certainty ++
  encodeReviewers t.reviewers

/-- Modelled from the spec: Tile Codec decode, purely mechanical, reading the
fields in the fixed order with no semantic validation. -/
def decodeTile (bs : List Nat) : Except DecodeError (TileRecord × List Nat) :=
  match decodeText bs with
  | Except.error e => Except.error e
  | Except.ok (kid, bs1) =>
  match decodeText bs1 with
  | Except.error e => Except.error e
  | Except.ok (top, bs2) =>
  match decodeText bs2 with
  | Except.error e => Except.error e
  | Except.ok (cat, bs3) =>
  match decodeFloat3 bs3 with
  | Except.error e => Except.error e
  | Except.ok (med, bs4) =>
  match decodeFloat3 bs4 with
  | Except.error e => Except.error e
  | Except.ok (meta, bs5) =>
  match decodeText bs5 with
  | Except.error e => Except.error e
  | Except.ok (think, bs6) =>
  match decodeText bs6 with
  | Except.error e => Except.error e
  | Except.ok (fin, bs7) =>
  match decodeText bs7 with
  | Except.error e => Except.error e
  | Except.ok (vstat, bs8) =>
  match decodeF64 bs8 with
  | Except.error e => Except.error e
  | Except.ok (cert, bs9) =>
  match decodeReviewers bs9 with
  | Except.error e => Except.error e
  | Except.ok (revs, bs10) =>
    Except.ok (⟨kid, top, cat, med, meta, think, fin, vstat, cert, revs⟩, bs10)

/-! ## Batch Codec (modelled from the spec, sections 4.3 / 6) -/

/-- Modelled from the spec: the 4-byte magic constant identifying the format
(the ASCII bytes of "IATH"). -/
def MAGIC : List Nat := [73, 65, 84, 72]

/-- Modelled from the spec: the current format version. -/
def FORMAT_VERSION : Nat := 1

/-- Modelled from the spec: validate every tile, returning the index and
reason of the first invalid one, checked before any byte is emitted. -/
def validateTiles : List TileRecord → Nat → Option ValidationError
  | [], _ => none
  | t :: ts, i =>
    if t.knowledge_id.isEmpty then some ⟨i, "knowledge_id must be non-empty"⟩
    else if t.topic.isEmpty then some ⟨i, "topic must be non-empty"⟩
    else if !certaintyValid t.initial_certainty then
      some ⟨i, "initial_certainty outside [0.0, 1.0]"⟩
    else validateTiles ts (i + 1)

/-- Modelled from the spec: Batch Codec encode — validate every tile first,
then emit header (magic, version, domain code, u32 tile count) and the tile
blocks in order.  Failure carries the first invalid index and produces no
bytes at all. -/
def encodeBatch (tiles : List TileRecord) (domain_code : Nat) :
    Except ValidationError (List Nat) :=
  match validateTiles tiles 0 with
  | some e => Except.error e
  | none =>
    Except.ok (MAGIC ++ [FORMAT_VERSION, domain_code % 256] ++
      u32Bytes tiles.length ++ (tiles.map encodeTile).flatten)

/-- Modelled from the spec: decode `n` consecutive tile blocks. -/
def decodeTiles : Nat → List Nat → Except DecodeError (List TileRecord × List Nat)
  | 0, bs => Except.ok ([], bs)
  | n + 1, bs =>
    match decodeTile bs with
    | Except.error e => Except.error e
    | Except.ok (t, bs1) =>
      match decodeTiles n bs1 with
      | Except.error e => Except.error e
      | Except.ok (ts, bs2) => Except.ok (t :: ts, bs2)

/-- Modelled from the spec: Batch Codec decode — check magic and version
before parsing any tile, read exactly `tile_count` blocks, then require the
stream to be fully consumed. -/
def decodeBatch (bs : List Nat) : Except DecodeError (Nat × Nat × List TileRecord) :=
  match bs with
  | m0 :: m1 :: m2 :: m3 :: ver :: dom :: rest =>
    if [m0, m1, m2, m3] ≠ MAGIC then Except.error DecodeError.badMagic
    else if FORMAT_VERSION < ver then Except.error DecodeError.unsupportedVersion
    else
      match readU32 rest with
      | none => Except.error DecodeError.truncatedRecord
      | some (count, body) =>
        match decodeTiles count body with
        | Except.error e => Except.error e
        | Except.ok (tiles, rem) =>
          if rem.isEmpty then Except.ok (dom, ver, tiles)
          else Except.error DecodeError.trailingData
  | _ => Except.error DecodeError.truncatedRecord

/-! ## Representability (well-formedness) of a record in the byte format -/

/-- A text field is representable: its byte count fits the u32 length prefix,
every element is a byte, and the bytes are valid UTF-8 (they come from
encoding a Python `str`). -/
def textWF (s : List Nat) : Bool :=
  decide (s.length < 4294967296) && (s.all (fun b => decide (b < 256)) && utf8Valid s)

/-- A float bit pattern is representable in 64 bits. -/
def floatWF (x : Nat) : Bool :=
  decide (x < 18446744073709551616)

/-- All three components of a coordinate vector are representable. -/
def float3WF (v : Nat × Nat × Nat) : Bool :=
  floatWF v.1 && (floatWF v.2.1 && floatWF v.2.2)

/-- A Tile Record is representable in the byte format. -/
def tileWF (t : TileRecord) : Bool :=
  textWF t.knowledge_id && (textWF t.topic && (textWF t.created_at &&
  (float3WF t.medical_space && (float3WF t.meta_space &&
  (textWF t.thinking_process && (textWF t.final_response &&
  (textWF t.verification_status && (floatWF t.initial_certainty &&
  (decide (t.reviewers.length < 4294967296) && t.reviewers.all textWF)))))))))

/-- A batch is representable: domain code fits its single byte, the tile
count fits the u32 header field, and every tile is representable. -/
def batchWF (tiles : List TileRecord) (domain_code : Nat) : Bool :=
  decide (domain_code < 256) && (decide (tiles.length < 4294967296) &&
  tiles.all tileWF)

/-- The single-tile example of spec section 8: `knowledge_id = "k1"`,
`topic = "Test"`, coordinates `(1.0, 2.0, 3.0)` and `(0.0, 0.0, 0.0)`, empty
`thinking_process`, `final_response = "Answer"`,
`verification_status = "pending_review"`, `initial_certainty = 0.5`, no
reviewers.  Text is given as UTF-8 bytes, floats as binary64 bit patterns. -/
def sampleTile : TileRecord :=
  { knowledge_id := [107, 49]
    topic := [84, 101, 115, 116]
    created_at := [50, 48, 50, 52]
    medical_space := (4607182418800017408, 4611686018427387904, 4613937818241073152)
    meta_space := (0, 0, 0)
    thinking_process := []
    final_response := [65, 110, 115, 119, 101, 114]
    verification_status := [112, 101, 110, 100, 105, 110, 103, 95, 114, 101, 118, 105, 101, 119]
    initial_certainty := 4602678819172646912
    reviewers := [] }

/-- `sampleTile` with `initial_certainty` replaced by the bit pattern of the
out-of-range double `1.5` (`0x3FF8000000000000`). -/
def badCertaintyTile : TileRecord :=
  { sampleTile with initial_certainty := 4609434218613702656 }

end Iath

namespace Converter

/-! ## Record Normalizer, embedded from
`converter_scripts/convert_db_to_iath.py` -/

/-- IEEE-754 binary64 bit pattern of the Python literal `0.0`. -/
def float_zero_bits : Nat := 0

/-- IEEE-754 binary64 bit pattern of the Python literal `0.5`. -/
def float_half_bits : Nat := 4602678819172646912

/-- A source row of the exported `knowledge_tiles` array.  Every field may be
missing, which Python's `dict.get` reports as absence; coordinate values are
binary64 bit patterns of the stored doubles. -/
structure D1Row where
  id : Option String
  topic : Option String
  created_at : Option String
  content : Option String
  author_mark : Option String
  coordinates_x : Option Nat
  coordinates_y : Option Nat
  coordinates_z : Option Nat
  verification_status : Option String
deriving DecidableEq

/-- The `metadata` section of the normalized record.  `knowledge_id` is
`d1_tile.get('id')` in the source: `dict.get` with no default, so a missing
`id` yields Python `None`, embedded as `Option.none`. -/
structure TileMetadata where
  knowledge_id : Option String
  topic : String
  created_at : String
deriving DecidableEq

/-- The `coordinates` section of the normalized record; both lists are built
by the source as three-element list literals. -/
structure TileCoordinates where
  medical_space : List Nat
  meta_space : List Nat
deriving DecidableEq

/-- The `content` section of the normalized record. -/
structure TileContent where
  thinking_process : String
  final_response : String
deriving DecidableEq

/-- The `verification` section of the normalized record. -/
structure TileVerification where
  status : String
  initial_certainty : Nat
  reviewers : List String
deriving DecidableEq

/-- The full normalized record returned by the normalizer: the four sections
of the dict literal in the source. -/
structure IathTile where
  metadata : TileMetadata
  coordinates : TileCoordinates
  content : TileContent
  verification : TileVerification
deriving DecidableEq

/-- `convert_d1_to_iath_v1_compatible` from the source.  `now_iso` stands for
`datetime.now().isoformat()`, the only impure expression in the function.
The source also computes `author_mark_str = d1_tile.get('author_mark',
'community')` and never uses it; it is reproduced here unused. -/
def convert_d1_to_iath_v1_compatible (d1_tile : D1Row) (now_iso : String) : IathTile :=
  let knowledge_id := d1_tile.id
  let content_text := d1_tile.content.getD ""
  let _author_mark_str := d1_tile.author_mark.getD "community"
  { metadata :=
      { knowledge_id := knowledge_id
        topic := d1_tile.topic.getD "Untitled Topic"
        created_at := d1_tile.created_at.getD now_iso }
    coordinates :=
      { medical_space :=
          [d1_tile.coordinates_x.getD float_zero_bits,
           d1_tile.coordinates_y.getD float_zero_bits,
           d1_tile.coordinates_z.getD float_zero_bits]
        meta_space := [float_zero_bits, float_zero_bits, float_zero_bits] }
    content :=
      { thinking_process := "[Auto-imported]\n" ++ content_text
        final_response := content_text }
    verification :=
      { status := d1_tile.verification_status.getD "pending_review"
        initial_certainty := float_half_bits
        reviewers := [] } }

/-- The JSON document returned by the export endpoint, as `main` reads it:
`exported_data.get('knowledge_tiles', [])` and `exported_data.get('users',
[])`.  Only the length of `users` is ever used (for logging). -/
structure ExportedData where
  knowledge_tiles : Option (List D1Row)
  users : Option (List Unit)

/-- The pure tail of `main` after the HTTP fetch and JSON parse: when the
tile list is empty it returns early — the encoder is never constructed,
`encode_batch` is never called, and the output file is never opened — which
is modelled as `none`; otherwise it converts each tile in order and hands the
list to `encode_batch` with `domain_code = 1`, modelled as `some` of that
list paired with the domain code. -/
def mainAfterFetch (exported : ExportedData) (now_iso : String) :
    Option (List IathTile × Nat) :=
  let knowledge_tiles_d1 := exported.knowledge_tiles.getD []
  if knowledge_tiles_d1.isEmpty then none
  else
    some (knowledge_tiles_d1.map (fun t => convert_d1_to_iath_v1_compatible t now_iso), 1)

/-- A source row with every field absent (the empty dict `{}`). -/
def emptyRow : D1Row :=
  ⟨none, none, none, none, none, none, none, none, none⟩

/-- A source row carrying a non-empty `id` and no `topic`. -/
def rowWithId : D1Row :=
  ⟨some "tile-7", none, none, none, none, none, none, none, none⟩

end Converter

namespace Iath

/-! ## Field-codec round-trip lemmas -/

theorem readU32_u32Bytes (n : Nat) (h : n < 4294967296) (rest : List Nat) :
    readU32 (u32Bytes n ++ rest) = some (n, rest) := by
  have hx : n % 256 + 256 * (n / 256 % 256) + 65536 * (n / 65536 % 256)
      + 16777216 * (n / 16777216 % 256) = n := by omega
  simp [u32Bytes, readU32, hx]

theorem readU64_u64Bytes (n : Nat) (h : n < 18446744073709551616) (rest : List Nat) :
    readU64 (u64Bytes n ++ rest) = some (n, rest) := by
  have hx : n % 256 + 256 * (n / 256 % 256) + 65536 * (n / 65536 % 256)
      + 16777216 * (n / 16777216 % 256) + 4294967296 * (n / 4294967296 % 256)
      + 1099511627776 * (n / 1099511627776 % 256)
      + 281474976710656 * (n / 281474976710656 % 256)
      + 72057594037927936 * (n / 72057594037927936 % 256) = n := by omega
  simp [u64Bytes, readU64, hx]

theorem readBytes_append (s rest : List Nat) :
    readBytes s.length (s ++ rest) = some (s, rest) := by
  simp [readBytes, List.take_left, List.drop_left, List.length_append,
    Nat.le_add_right]

theorem decodeText_encodeText (s : List Nat) (h : textWF s = true) (rest : List Nat) :
    decodeText (encodeText s ++ rest) = Except.ok (s, rest) := by
  simp only [textWF, Bool.and_eq_true, decide_eq_true_eq] at h
  obtain ⟨hlen, _, hutf⟩ := h
  simp [decodeText, encodeText, List.append_assoc, readU32_u32Bytes _ hlen,
    readBytes_append, hutf]

theorem decodeFloat3_encodeFloat3 (v : Nat × Nat × Nat) (h : float3WF v = true)
    (rest : List Nat) :
    decodeFloat3 (encodeFloat3 v ++ rest) = Except.ok (v, rest) := by
  obtain ⟨x, y, z⟩ := v
  simp only [float3WF, floatWF, Bool.and_eq_true, decide_eq_true_eq] at h
  obtain ⟨h1, h2, h3⟩ := h
  simp [decodeFloat3, encodeFloat3, List.append_assoc, readU64_u64Bytes _ h1,
    readU64_u64Bytes _ h2, readU64_u64Bytes _ h3]

theorem decodeF64_u64Bytes (x : Nat) (h : x < 18446744073709551616)
    (rest : List Nat) :
    decodeF64 (u64Bytes x ++ rest) = Except.ok (x, rest) := by
  simp [decodeF64, readU64_u64Bytes _ h]

theorem decodeTexts_encode (rs : List (List Nat)) (h : rs.all textWF = true)
    (rest : List Nat) :
    decodeTexts rs.length ((rs.map encodeText).flatten ++ rest) = Except.ok (rs, rest) := by
  induction rs generalizing rest with
  | nil => simp [decodeTexts]
  | cons s ss ih =>
    simp only [List.all_cons, Bool.and_eq_true] at h
    simp [decodeTexts, List.append_assoc, decodeText_encodeText _ h.1, ih h.2]

theorem decodeReviewers_encodeReviewers (rs : List (List Nat))
    (hlen : rs.length < 4294967296) (h : rs.all textWF = true) (rest : List Nat) :
    decodeReviewers (encodeReviewers rs ++ rest) = Except.ok (rs, rest) := by
  simp [decodeReviewers, encodeReviewers, List.append_assoc,
    readU32_u32Bytes _ hlen, decodeTexts_encode _ h]

theorem decodeTile_encodeTile (t : TileRecord) (h : tileWF t = true)
    (rest : List Nat) :
    decodeTile (encodeTile t ++ rest) = Except.ok (t, rest) := by
  obtain ⟨kid, top, cat, med, meta, think, fin, vstat, cert, revs⟩ := t
  simp only [tileWF, Bool.and_eq_true, decide_eq_true_eq] at h
  obtain ⟨h1, h2, h3, h4, h5, h6, h7, h8, h9, h10, h11⟩ := h
  have h9' : cert < 18446744073709551616 := by simpa [floatWF] using h9
  simp [decodeTile, encodeTile, List.append_assoc, decodeText_encodeText _ h1,
    decodeText_encodeText _ h2, decodeText_encodeText _ h3,
    decodeFloat3_encodeFloat3 _ h4, decodeFloat3_encodeFloat3 _ h5,
    decodeText_encodeText _ h6, decodeText_encodeText _ h7,
    decodeText_encodeText _ h8, decodeF64_u64Bytes _ h9',
    decodeReviewers_encodeReviewers _ h10 h11]

theorem decodeTiles_encode (ts : List TileRecord) (h : ts.all tileWF = true)
    (rest : List Nat) :
    decodeTiles ts.length ((ts.map encodeTile).flatten ++ rest) = Except.ok (ts, rest) := by
  induction ts generalizing rest with
  | nil => simp [decodeTiles]
  | cons t ts ih =>
    simp only [List.all_cons, Bool.and_eq_true] at h
    simp [decodeTiles, List.append_assoc, decodeTile_encodeTile _ h.1, ih h.2]

theorem validateTiles_none_of_all (ts : List TileRecord)
    (h : ts.all tileValid = true) (i : Nat) :
    validateTiles ts i = none := by
  induction ts generalizing i with
  | nil => simp [validateTiles]
  | cons t ts ih =>
    simp only [List.all_cons, Bool.and_eq_true] at h
    have h1 := h.1
    simp only [tileValid, Bool.and_eq_true, Bool.not_eq_true'] at h1
    simp [validateTiles, h1.1, h1.2.1, h1.2.2, ih h.2]

theorem validateTiles_first_invalid (ts : List TileRecord) (k : Nat)
    (hk : k < ts.length) (hbad : tileValid (ts.get ⟨k, hk⟩) = false)
    (hprev : (ts.take k).all tileValid = true) (i : Nat) :
    ∃ r, validateTiles ts i = some ⟨i + k, r⟩ := by
  induction ts generalizing i k with
  | nil => simp at hk
  | cons t ts ih =>
    cases k with
    | zero =>
      have hbad' : tileValid t = false := hbad
      by_cases h1 : t.knowledge_id.isEmpty = true
      · exact ⟨"knowledge_id must be non-empty", by simp [validateTiles, h1]⟩
      · simp only [Bool.not_eq_true] at h1
        by_cases h2 : t.topic.isEmpty = true
        · exact ⟨"topic must be non-empty", by simp [validateTiles, h1, h2]⟩
        · simp only [Bool.not_eq_true] at h2
          have h3 : certaintyValid t.initial_certainty = false := by
            simpa [tileValid, h1, h2] using hbad'
          exact ⟨"initial_certainty outside [0.0, 1.0]",
            by simp [validateTiles, h1, h2, h3]⟩
    | succ k =>
      simp only [List.take_succ_cons, List.all_cons, Bool.and_eq_true] at hprev
      have hv := hprev.1
      simp only [tileValid, Bool.and_eq_true, Bool.not_eq_true'] at hv
      have hk' : k < ts.length := by simpa using Nat.lt_of_succ_lt_succ hk
      have hbad' : tileValid (ts.get ⟨k, hk'⟩) = false := hbad
      obtain ⟨r, hr⟩ := ih k hk' hbad' hprev.2 (i + 1)
      refine ⟨r, ?_⟩
      have hi : i + 1 + k = i + (k + 1) := by omega
      simp [validateTiles, hv.1, hv.2.1, hv.2.2, hr, hi]

/-- Claim C1: for every valid Tile Batch — every tile representable in the
byte format and passing the validation gate, the domain code one byte, the
tile count within the u32 header field — encoding succeeds and decoding the
produced bytes yields the same domain code, format version, and the very
same tile list, field for field, reviewer order and float bit patterns
included (floats are embedded as their binary64 bit patterns, so list
equality is bit-pattern equality). -/
theorem C1_round_trip (tiles : List TileRecord) (domain_code : Nat)
    (hwf : batchWF tiles domain_code = true)
    (hvalid : tiles.all tileValid = true) :
    ∃ bs, encodeBatch tiles domain_code = Except.ok bs ∧
      decodeBatch bs = Except.ok (domain_code, FORMAT_VERSION, tiles) := by
  simp only [batchWF, Bool.and_eq_true, decide_eq_true_eq] at hwf
  obtain ⟨hdom, hcount, hall⟩ := hwf
  have hdm : domain_code % 256 = domain_code := Nat.mod_eq_of_lt hdom
  have hdec : decodeTiles tiles.length ((tiles.map encodeTile).flatten ++ []) =
      Except.ok (tiles, []) := decodeTiles_encode _ hall []
  rw [List.append_nil] at hdec
  refine ⟨MAGIC ++ [FORMAT_VERSION, domain_code % 256] ++ u32Bytes tiles.length ++
    (tiles.map encodeTile).flatten, ?_, ?_⟩
  · simp [encodeBatch, validateTiles_none_of_all _ hvalid]
  · simp [decodeBatch, MAGIC, FORMAT_VERSION, List.append_assoc, hdm,
      readU32_u32Bytes _ hcount, hdec]

/-- Witness for C1 at the single-tile example batch of spec section 8. -/
theorem C1_round_trip_witness :
    ∃ bs, encodeBatch [sampleTile] 1 = Except.ok bs ∧
      decodeBatch bs = Except.ok (1, FORMAT_VERSION, [sampleTile]) :=
  C1_round_trip [sampleTile] 1 (by decide) (by decide)

/-- Claim C3: encoding a batch whose tile at index `k` has an
`initial_certainty` outside [0.0, 1.0] (all earlier tiles passing the
validation gate) fails with a `ValidationError` carrying index `k`, and
produces no bytes at all: the result is an error, never a byte string, so no
header or body byte is emitted. -/
theorem C3_validation_gate (tiles : List TileRecord) (domain_code k : Nat)
    (hk : k < tiles.length)
    (hbad : certaintyValid (tiles.get ⟨k, hk⟩).initial_certainty = false)
    (hprev : (tiles.take k).all tileValid = true) :
    ∃ reason, encodeBatch tiles domain_code = Except.error ⟨k, reason⟩ ∧
      ∀ bs, encodeBatch tiles domain_code ≠ Except.ok bs := by
  have hbad' : certaintyValid tiles[k].initial_certainty = false := by
    simpa using hbad
  have hbadTile : tileValid (tiles.get ⟨k, hk⟩) = false := by
    simp [tileValid, hbad']
  obtain ⟨r, hr⟩ := validateTiles_first_invalid tiles k hk hbadTile hprev 0
  refine ⟨r, ?_, ?_⟩
  · simp [encodeBatch, hr]
  · intro bs hok
    simp [encodeBatch, hr] at hok

/-- Witness for C3: a two-tile batch whose second tile carries the bit
pattern of 1.5 fails with index 1. -/
theorem C3_validation_gate_witness :
    ∃ reason, encodeBatch [sampleTile, badCertaintyTile] 1 = Except.error ⟨1, reason⟩ ∧
      ∀ bs, encodeBatch [sampleTile, badCertaintyTile] 1 ≠ Except.ok bs :=
  C3_validation_gate [sampleTile, badCertaintyTile] 1 1 (by decide) (by decide)
    (by decide)

end Iath

namespace Converter

/-- Claim C2 counterexample: the claim says every source row normalizes to a
record with a non-empty `knowledge_id`, but the source computes
`d1_tile.get('id')` with no default, so the empty row normalizes to a record
whose `knowledge_id` is Python `None` — no non-empty identifier at all. -/
theorem C2_counterexample :
    ¬ ∃ s : String, s ≠ "" ∧
      (convert_d1_to_iath_v1_compatible emptyRow "2024-01-01T00:00:00").metadata.knowledge_id
        = some s := by
  simp [convert_d1_to_iath_v1_compatible, emptyRow]

/-- Claim C2 (amended): for every source row whose `id` field is present and
non-empty, and whose `topic` field is non-empty whenever present, the
normalized record has a non-empty `knowledge_id` and a non-empty `topic`
(the codec's precondition on those fields).  Rows without an `id` get
`knowledge_id = None`: the Normalizer supplies no default there. -/
theorem C2_nonempty_after_normalization (row : D1Row) (now_iso : String)
    (s : String) (hid : row.id = some s) (hs : s ≠ "")
    (htopic : ∀ t, row.topic = some t → t ≠ "") :
    (∃ u, (convert_d1_to_iath_v1_compatible row now_iso).metadata.knowledge_id = some u ∧
      u ≠ "") ∧
    (convert_d1_to_iath_v1_compatible row now_iso).metadata.topic ≠ "" := by
  constructor
  · exact ⟨s, by simp [convert_d1_to_iath_v1_compatible, hid], hs⟩
  · cases htop : row.topic with
    | none => simp [convert_d1_to_iath_v1_compatible, htop]
    | some t => simpa [convert_d1_to_iath_v1_compatible, htop] using htopic t htop

/-- Witness for the amended C2 at a row carrying `id = "tile-7"` and no
`topic`. -/
theorem C2_nonempty_after_normalization_witness :
    (∃ u, (convert_d1_to_iath_v1_compatible rowWithId "2024-01-01T00:00:00").metadata.knowledge_id
        = some u ∧ u ≠ "") ∧
    (convert_d1_to_iath_v1_compatible rowWithId "2024-01-01T00:00:00").metadata.topic ≠ "" :=
  C2_nonempty_after_normalization rowWithId "2024-01-01T00:00:00" "tile-7" rfl
    (by decide) (fun t h => by simp [rowWithId] at h)

/-- Claim C4: for every source row the normalized `medical_space` and
`meta_space` are lists of exactly three elements, as the source builds both
as three-element list literals. -/
theorem C4_spaces_length_three (row : D1Row) (now_iso : String) :
    (convert_d1_to_iath_v1_compatible row now_iso).coordinates.medical_space.length = 3 ∧
    (convert_d1_to_iath_v1_compatible row now_iso).coordinates.meta_space.length = 3 :=
  ⟨rfl, rfl⟩

/-- Claim C5: the Record Normalizer is total on dictionary inputs — for every
source row, including one with every field absent, it returns a record with
all four sections (`metadata`, `coordinates`, `content`, `verification`)
present; in this embedding it is a total function into `IathTile`, and the
theorem exhibits the four sections of its result. -/
theorem C5_normalizer_total (row : D1Row) (now_iso : String) :
    ∃ (md : TileMetadata) (co : TileCoordinates) (ct : TileContent)
      (vf : TileVerification),
      convert_d1_to_iath_v1_compatible row now_iso = ⟨md, co, ct, vf⟩ :=
  ⟨_, _, _, _, rfl⟩

/-- Claim C6: a source row with no `verification_status` field normalizes to
a record whose verification status is the domain default,
`"pending_review"`. -/
theorem C6_default_verification_status (row : D1Row) (now_iso : String)
    (h : row.verification_status = none) :
    (convert_d1_to_iath_v1_compatible row now_iso).verification.status = "pending_review" := by
  simp [convert_d1_to_iath_v1_compatible, h]

/-- Witness for C6 at the empty source row. -/
theorem C6_default_verification_status_witness :
    (convert_d1_to_iath_v1_compatible emptyRow "2024-01-01T00:00:00").verification.status
      = "pending_review" :=
  C6_default_verification_status emptyRow "2024-01-01T00:00:00" rfl

/-- Claim C7: tile order is preserved end-to-end through the script — when
the export carries a non-empty `knowledge_tiles` array, the list `main`
hands to `encode_batch` (with `domain_code = 1`) has the same length as the
fetched array, and its i-th element is the normalization of the i-th fetched
tile. -/
theorem C7_order_preserved (exported : ExportedData) (tiles : List D1Row)
    (now_iso : String) (h1 : exported.knowledge_tiles = some tiles)
    (h2 : tiles ≠ []) :
    ∃ l, mainAfterFetch exported now_iso = some (l, 1) ∧
      l.length = tiles.length ∧
      ∀ i : Nat, l[i]? =
        (tiles[i]?).map (fun t => convert_d1_to_iath_v1_compatible t now_iso) := by
  refine ⟨tiles.map (fun t => convert_d1_to_iath_v1_compatible t now_iso), ?_, ?_, ?_⟩
  · simp [mainAfterFetch, h1, h2]
  · simp
  · intro i
    simp

/-- Witness for C7 at a one-row export. -/
theorem C7_order_preserved_witness :
    ∃ l, mainAfterFetch ⟨some [emptyRow], some []⟩ "2024-01-01T00:00:00" = some (l, 1) ∧
      l.length = [emptyRow].length ∧
      ∀ i : Nat, l[i]? =
        ([emptyRow][i]?).map (fun t => convert_d1_to_iath_v1_compatible t "2024-01-01T00:00:00") :=
  C7_order_preserved ⟨some [emptyRow], some []⟩ [emptyRow] "2024-01-01T00:00:00"
    rfl (by simp)

/-- Claim C8: the normalizer never reads `meta_space`, `initial_certainty` or
`reviewers` from the source row — for every row they are the constants
`[0.0, 0.0, 0.0]` (bit patterns `[0, 0, 0]`), `0.5` (bit pattern
`0x3FE0000000000000`), and the empty list. -/
theorem C8_constant_fields (row : D1Row) (now_iso : String) :
    (convert_d1_to_iath_v1_compatible row now_iso).coordinates.meta_space =
      [float_zero_bits, float_zero_bits, float_zero_bits] ∧
    (convert_d1_to_iath_v1_compatible row now_iso).verification.initial_certainty =
      float_half_bits ∧
    (convert_d1_to_iath_v1_compatible row now_iso).verification.reviewers = [] :=
  ⟨rfl, rfl, rfl⟩

/-- Claim C9: for every source row, `thinking_process` is the string
`"[Auto-imported]\n"` followed by the row's content (empty when the
`content` field is missing), `final_response` is exactly that content, and
so `final_response` is a suffix of `thinking_process`. -/
theorem C9_content_split (row : D1Row) (now_iso : String) :
    (convert_d1_to_iath_v1_compatible row now_iso).content.thinking_process =
      "[Auto-imported]\n" ++ row.content.getD "" ∧
    (convert_d1_to_iath_v1_compatible row now_iso).content.final_response =
      row.content.getD "" ∧
    ∃ p, (convert_d1_to_iath_v1_compatible row now_iso).content.thinking_process =
      p ++ (convert_d1_to_iath_v1_compatible row now_iso).content.final_response :=
  ⟨rfl, rfl, "[Auto-imported]\n", rfl⟩

/-- Claim C10: when the exported JSON has an absent or empty
`knowledge_tiles` array, `main` returns early — in this model of its pure
tail, the result is `none`, the branch in which the encoder is constructed,
`encode_batch` is called and the output file is written is never taken. -/
theorem C10_empty_early_return (exported : ExportedData) (now_iso : String)
    (h : exported.knowledge_tiles = none ∨ exported.knowledge_tiles = some []) :
    mainAfterFetch exported now_iso = none := by
  rcases h with h | h <;> simp [mainAfterFetch, h]

/-- Witness for C10 at an export with no `knowledge_tiles` key. -/
theorem C10_empty_early_return_witness :
    mainAfterFetch ⟨none, some []⟩ "2024-01-01T00:00:00" = none :=
  C10_empty_early_return ⟨none, some []⟩ "2024-01-01T00:00:00" (Or.inl rfl)

end Converter

